import Mathlib

/-
Verification of the refresh pipeline and aggregation engine of an EV
charging-station map service.  The definitions below are shallow embeddings
of the TypeScript source: numbers are modelled as rationals, JavaScript
`Math.round` as the floor of x + 1/2, optional values as `Option`, and the
JavaScript truthiness tests of the source are made explicit.  Strings that
only flow through `split`, `trim` and length checks are modelled as lists of
characters.
-/

/-- JavaScript Math.round: half-integers round toward positive infinity. -/
def jsRound (x : ℚ) : ℚ := (((x + 1/2).floor : ℤ) : ℚ)

/-- A rational is integral when it is the image of an integer. -/
def isIntQ (q : ℚ) : Prop := ∃ n : ℤ, q = (n : ℚ)

/- ---------------------------------------------------------------------
Station normalizer (data-processor.ts, processNRELStation).
--------------------------------------------------------------------- -/

structure NRELStation where
  ev_connector_types : List String
  ev_dc_fast_num : Option Nat
  ev_level2_evse_num : Option Nat
  ev_level1_evse_num : Option Nat

inductive ChargerLevel where
  | level1
  | level2
  | dcfast
deriving DecidableEq

/-- Occurrence of a pattern as a contiguous run inside a character list. -/
def infixCheck (pat : List Char) : List Char → Bool
  | [] => pat.isPrefixOf []
  | c :: cs => pat.isPrefixOf (c :: cs) || infixCheck pat cs

/-- JavaScript String.prototype.includes. -/
def strIncludes (s pat : String) : Bool := infixCheck pat.toList s.toList

/-- Source condition: (ev_dc_fast_num && ev_dc_fast_num > 0) ||
ev_connector_types?.some(type => type.includes('DCFAST') || type.includes('TESLA')). -/
def hasDCFast (st : NRELStation) : Bool :=
  decide (0 < st.ev_dc_fast_num.getD 0)
    || st.ev_connector_types.any fun t => strIncludes t "DCFAST" || strIncludes t "TESLA"

/-- Source condition: ev_level2_evse_num && ev_level2_evse_num > 0. -/
def hasLevel2 (st : NRELStation) : Bool :=
  decide (0 < st.ev_level2_evse_num.getD 0)

/-- JavaScript `x || 1` on an optional count: 0 and undefined give 1. -/
def jsNumOr1 (o : Option Nat) : Nat := if o.getD 0 = 0 then 1 else o.getD 0

/-- Classification cascade of processNRELStation: charger type and port count. -/
def processNRELStation (st : NRELStation) : ChargerLevel × Nat :=
  if hasDCFast st then (ChargerLevel.dcfast, jsNumOr1 st.ev_dc_fast_num)
  else if hasLevel2 st then (ChargerLevel.level2, jsNumOr1 st.ev_level2_evse_num)
  else (ChargerLevel.level1, jsNumOr1 st.ev_level1_evse_num)

def chargerTypeOf (st : NRELStation) : ChargerLevel := (processNRELStation st).1

/-- The classification as the specification words it: dcfast iff a DC-fast
port count > 0 or the connector-type set contains J1772COMBO, CHADEMO or
TESLA; else level2 iff a level-2 count > 0; else level1. -/
def claimedChargerType (st : NRELStation) : ChargerLevel :=
  if 0 < st.ev_dc_fast_num.getD 0
      ∨ st.ev_connector_types.any
          (fun t => t == "J1772COMBO" || t == "CHADEMO" || t == "TESLA") = true
  then ChargerLevel.dcfast
  else if 0 < st.ev_level2_evse_num.getD 0 then ChargerLevel.level2
  else ChargerLevel.level1

/-- A CHAdeMO-only station with two level-2 ports and no DC-fast count. -/
def chademoStation : NRELStation :=
  { ev_connector_types := ["CHADEMO"]
    ev_dc_fast_num := none
    ev_level2_evse_num := some 2
    ev_level1_evse_num := none }

/- ---------------------------------------------------------------------
ZIP cleaning (zip-aggregation.ts / smart-aggregator: station.zip?.split('-')[0]?.trim(),
kept only when nonempty of length 5).
--------------------------------------------------------------------- -/

/-- JavaScript zip.split('-')[0]: the characters before the first dash. -/
def takeUntilDash : List Char → List Char
  | [] => []
  | c :: cs => if c = '-' then [] else c :: takeUntilDash cs

/-- JavaScript String.prototype.trim on a character list. -/
def trimChars (l : List Char) : List Char :=
  ((l.dropWhile Char.isWhitespace).reverse.dropWhile Char.isWhitespace).reverse

/-- Source cleaning: cleanZip = zip.split('-')[0].trim(); rejected unless
nonempty of length exactly 5. -/
def cleanZip (z : List Char) : Option (List Char) :=
  let c := trimChars (takeUntilDash z)
  if c.isEmpty = true ∨ c.length ≠ 5 then none else some c

/-- The cleaning as the specification words it: the first 5 characters after
trimming, provided they are all numeric. -/
def claimedCleanZip (z : List Char) : Option (List Char) :=
  let t := (trimChars z).take 5
  if t.length = 5 ∧ t.all Char.isDigit = true then some t else none

/- ---------------------------------------------------------------------
Scoring (map-utils.ts).  Both return sites of calculateFilteredScore wrap
the raw score in Math.round(Math.min(100, Math.max(0, _))); the wrapper is
hoisted here into calculateFilteredScore and the branch bodies are kept in
rawFilteredScore.
--------------------------------------------------------------------- -/

namespace MapUtils

/-- Legacy station-count piecewise score (thresholds 60/40/25/15/8). -/
def legacyStationPiece (cpc : ℚ) : ℚ :=
  if cpc ≥ 60 then 80 + min ((cpc - 60) / 40 * 20) 20
  else if cpc ≥ 40 then 70 + (cpc - 40) / 20 * 10
  else if cpc ≥ 25 then 55 + (cpc - 25) / 15 * 15
  else if cpc ≥ 15 then 40 + (cpc - 15) / 10 * 15
  else if cpc ≥ 8 then 25 + (cpc - 8) / 7 * 15
  else cpc / 8 * 25

/-- Legacy port-count piecewise score (thresholds 200/120/75/40/20). -/
def legacyPortPiece (cpc : ℚ) : ℚ :=
  if cpc ≥ 200 then 80 + min ((cpc - 200) / 100 * 20) 20
  else if cpc ≥ 120 then 70 + (cpc - 120) / 80 * 10
  else if cpc ≥ 75 then 55 + (cpc - 75) / 45 * 15
  else if cpc ≥ 40 then 40 + (cpc - 40) / 35 * 15
  else if cpc ≥ 20 then 25 + (cpc - 20) / 20 * 15
  else cpc / 20 * 25

/-- Traffic-adjusted station piecewise of the VMT branch (thresholds 100/60/35/20/10). -/
def vmtStationPiece (a : ℚ) : ℚ :=
  if a ≥ 100 then 100
  else if a ≥ 60 then 85 + (a - 60) / 40 * 15
  else if a ≥ 35 then 65 + (a - 35) / 25 * 20
  else if a ≥ 20 then 40 + (a - 20) / 15 * 25
  else if a ≥ 10 then 20 + (a - 10) / 10 * 20
  else a / 10 * 20

/-- Traffic-adjusted port piecewise of the VMT branch (thresholds 300/180/105/60/30). -/
def vmtPortPiece (a : ℚ) : ℚ :=
  if a ≥ 300 then 100
  else if a ≥ 180 then 85 + (a - 180) / 120 * 15
  else if a ≥ 105 then 65 + (a - 105) / 75 * 20
  else if a ≥ 60 then 40 + (a - 60) / 45 * 25
  else if a ≥ 30 then 20 + (a - 30) / 30 * 20
  else a / 30 * 20

/-- Math.max(0.5, Math.min(2.0, vmtPerCapita / 25)). -/
def trafficMultiplier (v : ℚ) : ℚ := max (1/2) (min 2 (v / 25))

/-- Population density component Math.min((population / 300000) * 100, 100). -/
def densityScore (pop : ℚ) : ℚ := min (pop / 300000 * 100) 100

/-- The two branch bodies of calculateFilteredScore before clamping and
rounding; `!vmtPerCapita` is true for an absent or zero VMT value. -/
def rawFilteredScore (w pop : ℚ) (vmt : Option ℚ) (isPortCount : Bool) : ℚ :=
  if vmt.getD 0 = 0 then
    if isPortCount then legacyPortPiece (w / pop * 100000)
    else legacyStationPiece (w / pop * 100000)
  else
    (if isPortCount then vmtPortPiece (w / pop * 100000 / trafficMultiplier (vmt.getD 0))
     else vmtStationPiece (w / pop * 100000 / trafficMultiplier (vmt.getD 0))) * (7/10)
      + densityScore pop * (3/10)

/-- calculateFilteredScore of map-utils.ts. -/
def calculateFilteredScore (w pop : ℚ) (vmt : Option ℚ) (isPortCount : Bool) : ℚ :=
  jsRound (min 100 (max 0 (rawFilteredScore w pop vmt isPortCount)))

/-- The VMT-present readiness score as the specification words it: the
no-VMT piecewise (thresholds 60/40/25/15/8, or 200/120/75/40/20 when
port-weighted) applied to the traffic-adjusted density, blended 0.7/0.3
with the population density component. -/
def claimedVmtReadiness (w pop v : ℚ) (isPortCount : Bool) : ℚ :=
  jsRound (min 100 (max 0
    ((if isPortCount then legacyPortPiece (w / pop * 100000 / trafficMultiplier v)
      else legacyStationPiece (w / pop * 100000 / trafficMultiplier v)) * (7/10)
      + densityScore pop * (3/10))))

/-- The VMT-present readiness score as amended: thresholds 100/60/35/20/10
(stations) or 300/180/105/60/30 (ports), demand multiplier
clamp(vmt / 25, 0.5, 2.0), blend 0.7·charger + 0.3·density, clamped to
[0, 100] and rounded. -/
def amendedVmtReadiness (w pop v : ℚ) (isPortCount : Bool) : ℚ :=
  jsRound (min 100 (max 0
    ((7/10) * (if isPortCount then vmtPortPiece ((w / pop * 100000) / min 2 (max (1/2) (v / 25)))
      else vmtStationPiece ((w / pop * 100000) / min 2 (max (1/2) (v / 25))))
      + (3/10) * min (pop / 300000 * 100) 100)))

/-- The opportunity base piecewise of calculateOpportunityScore. -/
def baseOpportunity (d pop : ℚ) : ℚ :=
  if d ≤ 5 then 80 + min (pop / 100000 / 5 * 20) 20
  else if d ≤ 15 then 60 + (15 - d) / 10 * 20
  else if d ≤ 30 then 40 + (30 - d) / 15 * 20
  else if d ≤ 50 then 20 + (50 - d) / 20 * 20
  else max 0 (20 - (d - 50) / 10 * 20)

/-- calculateOpportunityScore of map-utils.ts; the low-population branch
returns without rounding. -/
def calculateOpportunityScore (c pop : ℚ) (vmt : Option ℚ) : ℚ :=
  if pop < 10000 then min 25 (pop / 10000 * 25)
  else jsRound (min 100 (max 0
    (baseOpportunity (c / pop * 100000) pop
      * (if vmt.getD 0 = 0 then 1 else trafficMultiplier (vmt.getD 0)))))

end MapUtils

/- ---------------------------------------------------------------------
Need scores: the legacy scoring.ts version (clamped, unrounded) and the
local helper of zip-aggregation.ts (neither clamped nor rounded).
--------------------------------------------------------------------- -/

namespace Scoring

/-- calculateNeedScore of scoring.ts: population/10000 − chargerCount·5 +
a distance penalty, clamped to [0, 100]. -/
def calculateNeedScore (pop c : ℚ) (avgDistance : Option ℚ) : ℚ :=
  max 0 (min 100 (pop / 10000 - c * 5
    + (if avgDistance.getD 0 = 0 then 0 else min (avgDistance.getD 0 * 2) 20)))

end Scoring

namespace ZipAggregation

/-- The calculateNeedScore local to zip-aggregation.ts: unclamped. -/
def calculateNeedScore (pop c : ℚ) : ℚ :=
  pop / 10000 + pop / 100000 * 2 - c * 5

end ZipAggregation

namespace AggregationOptimized

/-- calculateWeightedEVScore of aggregation-optimized.ts: returns 0 for a
zero (or missing) population, otherwise rounds min(100, base + bonus)
where base = min(100, (weighted / population) · 50000) and
bonus = min(20, weighted / 10). -/
def calculateWeightedEVScore (w pop : ℚ) : ℚ :=
  if pop = 0 then 0
  else jsRound (min 100 (min 100 (w / pop * 50000) + min 20 (w / 10)))

end AggregationOptimized

/- ---------------------------------------------------------------------
Smart update route (charging-data POST / smart-update) and the ZIP
completion check of the smart aggregator.
--------------------------------------------------------------------- -/

structure ZipCompletion where
  total_affected : Nat
  completed : Nat
  remaining : Int
  percentage : ℚ
  is_complete : Bool
deriving DecidableEq

structure UpdateResult where
  success : Bool
  states_processed : Nat
  counties_processed : Nat
  zips_processed : Nat
  total_changes : Nat
  zip_completion : ZipCompletion
deriving DecidableEq

/-- calculateZipCompletion of the smart aggregator: the chunked staging
count when the check runs (some counts), and the catch branch of a failed
check (none), which reports zero completed and not complete. -/
def calculateZipCompletion (total : Nat) (chunkCounts : Option (List Nat)) : ZipCompletion :=
  match chunkCounts with
  | some counts =>
    { total_affected := total
      completed := counts.sum
      remaining := (total : Int) - counts.sum
      percentage := jsRound ((counts.sum : ℚ) / (total : ℚ) * 100)
      is_complete := ((total : Int) - counts.sum) == 0 }
  | none =>
    { total_affected := total
      completed := 0
      remaining := (total : Int)
      percentage := 0
      is_complete := false }

inductive RouteOutcome where
  | serverError
  | inProgress (remaining : Int)
  | swapFailed
  | done (swap_performed : Bool)
deriving DecidableEq

/-- The swap_performed flag of the final response. -/
def swapPerformedFlag (useStaging : Bool) (r : UpdateResult) : Bool :=
  useStaging && decide (0 < r.total_changes) && r.zip_completion.is_complete

/-- Control flow of the smart-update POST handler after
performIncrementalUpdate returns r: 500 on failure; with staging and
detected changes, an in-progress response when the ZIP completion is not
complete, otherwise the atomic swap (500 on swap failure); a final
response otherwise. -/
def smartUpdateRoute (useStaging : Bool) (r : UpdateResult) (swapOk : Bool) : RouteOutcome :=
  if r.success = false then RouteOutcome.serverError
  else if useStaging = true ∧ 0 < r.total_changes then
    if r.zip_completion.is_complete = false then
      RouteOutcome.inProgress r.zip_completion.remaining
    else if swapOk = false then RouteOutcome.swapFailed
    else RouteOutcome.done (swapPerformedFlag useStaging r)
  else RouteOutcome.done (swapPerformedFlag useStaging r)

/-- Whether the handler reaches the call of swapStagingToProduction. -/
def swapInvoked (useStaging : Bool) (r : UpdateResult) : Bool :=
  r.success && useStaging && decide (0 < r.total_changes) && r.zip_completion.is_complete

/-- A successful zips-only cycle: changes detected, ZIP completion
complete, but zero state and county aggregation counts. -/
def r0 : UpdateResult :=
  { success := true
    states_processed := 0
    counties_processed := 0
    zips_processed := 5
    total_changes := 5
    zip_completion :=
      { total_affected := 5, completed := 5, remaining := 0, percentage := 100, is_complete := true } }

/-- A cycle whose ZIP sub-pipeline reports partial completion (200 of 250). -/
def r1 : UpdateResult :=
  { success := true
    states_processed := 3
    counties_processed := 2
    zips_processed := 200
    total_changes := 7
    zip_completion :=
      { total_affected := 250, completed := 200, remaining := 50, percentage := 80, is_complete := false } }

/- ---------------------------------------------------------------------
Full refresh route (refresh-data POST) and chunked station insertion
(data-processor.ts batchInsertStations).
--------------------------------------------------------------------- -/

structure InsertResult where
  inserted : Nat
  errors : Nat
deriving DecidableEq

inductive RefreshOutcome where
  | abortedInsert
  | abortedSwap
  | completed (stations : Nat) (states : Nat)
deriving DecidableEq

/-- Control flow of the refresh-data POST handler after the staging insert:
abort when the insert reported any errors, otherwise aggregate and swap. -/
def refreshRoute (ins : InsertResult) (stateCount : Nat) (swapOk : Bool) : RefreshOutcome :=
  if 0 < ins.errors then RefreshOutcome.abortedInsert
  else if swapOk then RefreshOutcome.completed ins.inserted stateCount
  else RefreshOutcome.abortedSwap

/-- Whether the cycle proceeds past ingestion to aggregation and the swap. -/
def swapAttempted (ins : InsertResult) : Bool := !decide (0 < ins.errors)

/-- The ingestion gate as the specification words it: inserted > 0 and
staging station count strictly above half the serving station count. -/
def claimedIngestGate (ins : InsertResult) (stagingCount servingCount : Nat) : Bool :=
  decide (0 < ins.inserted) && decide (servingCount < 2 * stagingCount)

/-- The chunk loop of batchInsertStations: chunk i adds its row count to
inserted when its insert succeeds and to errors when it fails; every chunk
is processed. -/
def batchGo (ok : Nat → Bool) : Nat → List (List Nat) → InsertResult
  | _, [] => { inserted := 0, errors := 0 }
  | i, b :: rest =>
    let r := batchGo ok (i + 1) rest
    if ok i then { inserted := b.length + r.inserted, errors := r.errors }
    else { inserted := r.inserted, errors := b.length + r.errors }

/-- batchInsertStations over pre-sliced chunks, with ok i the success of
chunk i's insert. -/
def batchInsertStations (chunks : List (List Nat)) (ok : Nat → Bool) : InsertResult :=
  batchGo ok 0 chunks

/-- Indices of the chunks whose insert succeeds (and whose rows land in
staging). -/
def insertedChunkIdxs (chunks : List (List Nat)) (ok : Nat → Bool) : List Nat :=
  (List.range chunks.length).filter fun i => ok i

/- ---------------------------------------------------------------------
Table routing of the three aggregators (aggregation-optimized.ts,
county-aggregation-optimized.ts, zip-aggregation.ts): each reads the
production charging_stations table regardless of useStaging, while
ingestion writes to charging_stations_staging.
--------------------------------------------------------------------- -/

def Tables : Type := String → List Nat

/-- Appending rows to a named table. -/
def insertRows (tbls : Tables) (tableName : String) (rows : List Nat) : Tables :=
  fun t => if t = tableName then tbls t ++ rows else tbls t

/-- Station table targeted by batchInsertStations for a staging cycle. -/
def batchInsertTargetTable (useStaging : Bool) : String :=
  if useStaging then "charging_stations_staging" else "charging_stations"

/-- Stations table read by generateZipData (a constant in the source). -/
def zipAggStationsTable (_useStaging : Bool) : String := "charging_stations"

/-- Stations table read by generateStateDataOptimized. -/
def stateAggStationsTable (_useStaging : Bool) : String := "charging_stations"

/-- Stations table read by generateCountyDataOptimized. -/
def countyAggStationsTable (_useStaging : Bool) : String := "charging_stations"

def zipAggStationsInput (tbls : Tables) (u : Bool) : List Nat := tbls (zipAggStationsTable u)

def stateAggStationsInput (tbls : Tables) (u : Bool) : List Nat := tbls (stateAggStationsTable u)

def countyAggStationsInput (tbls : Tables) (u : Bool) : List Nat := tbls (countyAggStationsTable u)

/-- The aggregation input as the specification words it: the staging
station table filled by the current cycle's ingestion. -/
def claimedAggStationsInput (tbls : Tables) : List Nat := tbls "charging_stations_staging"

/-- Tables holding one freshly ingested station in staging and nothing in
the serving station table. -/
def tbls0 : Tables := fun t => if t = "charging_stations_staging" then [7] else []


/- ---------------------------------------------------------------------
Helper lemmas.
--------------------------------------------------------------------- -/

theorem ratFloor_eq_intFloor (q : ℚ) : q.floor = ⌊q⌋ :=
  (Rat.floor_def' q).trans Rat.floor_def.symm

theorem jsRound_eq_intCast (x : ℚ) (z : ℤ) (h1 : (z : ℚ) ≤ x + 1/2)
    (h2 : x + 1/2 < (z : ℚ) + 1) : jsRound x = (z : ℚ) := by
  unfold jsRound
  rw [ratFloor_eq_intFloor]
  have h : ⌊x + 1/2⌋ = z := Int.floor_eq_iff.mpr ⟨h1, h2⟩
  rw [h]

theorem jsRound_clamp_int (s : ℚ) :
    isIntQ (jsRound (min 100 (max 0 s)))
      ∧ 0 ≤ jsRound (min 100 (max 0 s)) ∧ jsRound (min 100 (max 0 s)) ≤ 100 := by
  set q := min 100 (max 0 s) with hq
  have hq0 : 0 ≤ q := le_min (by norm_num) (le_max_left 0 s)
  have hq1 : q ≤ 100 := min_le_left _ _
  have hfl : jsRound q = ((⌊q + 1/2⌋ : ℤ) : ℚ) := by
    unfold jsRound
    rw [ratFloor_eq_intFloor]
  refine ⟨⟨⌊q + 1/2⌋, hfl⟩, ?_, ?_⟩
  · rw [hfl]
    have : (0 : ℤ) ≤ ⌊q + 1/2⌋ := Int.floor_nonneg.mpr (by linarith)
    exact_mod_cast this
  · rw [hfl]
    have : ⌊q + 1/2⌋ < 101 := Int.floor_lt.mpr (by push_cast; linarith)
    have h2 : ⌊q + 1/2⌋ ≤ 100 := by omega
    exact_mod_cast h2

theorem min100_absorb (x b : ℚ) (h : 0 ≤ b ∨ x ≤ 100) :
    min 100 (min 100 x + b) = min 100 (x + b) := by
  rcases le_total x 100 with h1 | h1
  · rw [min_eq_right h1]
  · rw [min_eq_left h1]
    rcases h with hb | hx
    · have e1 : min 100 (100 + b) = 100 := min_eq_left (by linarith)
      have e2 : min 100 (x + b) = 100 := min_eq_left (by linarith)
      rw [e1, e2]
    · have hx100 : x = 100 := le_antisymm hx h1
      rw [hx100]

/- ---------------------------------------------------------------------
Claim theorems.
--------------------------------------------------------------------- -/

/-- Claim C3 (counterexample): a station whose connector set is exactly
CHADEMO, with no DC-fast port count and two level-2 ports, is classified
level2 by the code while the claim classifies it dcfast: the code tests
substring containment of DCFAST or TESLA, not membership of J1772COMBO,
CHADEMO or TESLA. -/
theorem C3_counterexample :
    chargerTypeOf chademoStation = ChargerLevel.level2
      ∧ claimedChargerType chademoStation = ChargerLevel.dcfast := by decide

/-- Claim C3 (amended): level = dcfast iff the DC-fast port count is > 0 or
some connector-type string contains DCFAST or TESLA as a substring; of the
upstream connector enum only TESLA matches, J1772COMBO, CHADEMO and J1772
do not; otherwise level2 iff the level-2 count is > 0; otherwise level1. -/
theorem C3_normalizer_level_amended : ∀ st : NRELStation,
    (chargerTypeOf st = ChargerLevel.dcfast ↔ hasDCFast st = true)
      ∧ (chargerTypeOf st = ChargerLevel.level2 ↔ (hasDCFast st = false ∧ hasLevel2 st = true))
      ∧ (chargerTypeOf st = ChargerLevel.level1 ↔ (hasDCFast st = false ∧ hasLevel2 st = false))
      ∧ strIncludes "J1772COMBO" "DCFAST" = false
      ∧ strIncludes "CHADEMO" "DCFAST" = false
      ∧ strIncludes "J1772COMBO" "TESLA" = false
      ∧ strIncludes "CHADEMO" "TESLA" = false
      ∧ strIncludes "J1772" "DCFAST" = false
      ∧ strIncludes "J1772" "TESLA" = false
      ∧ strIncludes "TESLA" "TESLA" = true := by
  intro st
  unfold chargerTypeOf processNRELStation
  refine ⟨?_, ?_, ?_, by decide, by decide, by decide, by decide, by decide, by decide, by decide⟩ <;>
    cases hdc : hasDCFast st <;> cases hl2 : hasLevel2 st <;> simp [hdc, hl2]

/-- Claim C6 (counterexample): the code rejects "1234567" (seven characters
before any dash) where the claim accepts its numeric 5-character prefix
"12345", and the code accepts the non-numeric "ABCDE" where the claim
rejects it. -/
theorem C6_counterexample :
    cleanZip "1234567".toList = none
      ∧ claimedCleanZip "1234567".toList = some "12345".toList
      ∧ cleanZip "ABCDE".toList = some "ABCDE".toList
      ∧ claimedCleanZip "ABCDE".toList = none := by decide

/-- Claim C6 (amended): the canonical ZIP is the trimmed text before the
first dash, accepted iff it has exactly 5 characters, with no numeric
check; "12345-6789" canonicalizes to "12345". -/
theorem C6_zip_cleaning_amended :
    (∀ z c, cleanZip z = some c → c = trimChars (takeUntilDash z) ∧ c.length = 5)
      ∧ cleanZip "12345-6789".toList = some "12345".toList := by
  constructor
  · intro z c h
    by_cases hcond : (trimChars (takeUntilDash z)).isEmpty = true
        ∨ (trimChars (takeUntilDash z)).length ≠ 5
    · simp only [cleanZip] at h
      rw [if_pos hcond] at h
      exact absurd h (by simp)
    · simp only [cleanZip] at h
      rw [if_neg hcond] at h
      have he := Option.some.inj h
      push_neg at hcond
      exact ⟨he.symm, he ▸ hcond.2⟩
  · decide

theorem C6_zip_cleaning_amended_witness :
    "12345".toList = trimChars (takeUntilDash "12345-6789".toList)
      ∧ ("12345".toList).length = 5 :=
  C6_zip_cleaning_amended.1 ("12345-6789".toList) ("12345".toList) (by decide)

/-- Claim C2 (counterexample): with one freshly ingested station sitting in
charging_stations_staging and an empty serving charging_stations table, all
three aggregators read an empty station list, while the claimed behavior
reads the staged station. -/
theorem C2_counterexample :
    zipAggStationsInput tbls0 true = []
      ∧ stateAggStationsInput tbls0 true = []
      ∧ countyAggStationsInput tbls0 true = []
      ∧ claimedAggStationsInput tbls0 = [7] := by decide

/-- Claim C2 (amended): the state, county and ZIP aggregators always read
the production charging_stations table, for staging cycles too, so rows
inserted by the current cycle's ingestion into charging_stations_staging
never change the aggregation input. -/
theorem C2_aggregation_reads_production : ∀ (tbls : Tables) (u : Bool) (rows : List Nat),
    zipAggStationsInput (insertRows tbls (batchInsertTargetTable true) rows) u
        = zipAggStationsInput tbls u
      ∧ stateAggStationsInput (insertRows tbls (batchInsertTargetTable true) rows) u
        = stateAggStationsInput tbls u
      ∧ countyAggStationsInput (insertRows tbls (batchInsertTargetTable true) rows) u
        = countyAggStationsInput tbls u
      ∧ zipAggStationsInput tbls u = tbls "charging_stations"
      ∧ stateAggStationsInput tbls u = tbls "charging_stations"
      ∧ countyAggStationsInput tbls u = tbls "charging_stations" := by
  intro tbls u rows
  have hne : ("charging_stations" : String) ≠ "charging_stations_staging" := by decide
  refine ⟨?_, ?_, ?_, rfl, rfl, rfl⟩ <;>
    simp [zipAggStationsInput, stateAggStationsInput, countyAggStationsInput, insertRows,
      batchInsertTargetTable, zipAggStationsTable, stateAggStationsTable,
      countyAggStationsTable, hne]

/-- Claim C4 (counterexample): an ingestion that inserts zero stations with
zero errors proceeds to aggregation and the swap even though the claimed
gate (inserted > 0 and staging above half of serving, here 0 staged against
1000 serving) rejects the cycle. -/
theorem C4_counterexample :
    swapAttempted { inserted := 0, errors := 0 } = true
      ∧ refreshRoute { inserted := 0, errors := 0 } 51 true = RefreshOutcome.completed 0 51
      ∧ claimedIngestGate { inserted := 0, errors := 0 } 0 1000 = false := by decide

/-- Claim C4 (amended): the refresh cycle proceeds past ingestion iff the
staging insert reported zero errors; there is no inserted > 0 check and no
staging-to-serving ratio invariant, and on insert errors the cycle aborts
before the swap. -/
theorem C4_ingest_gate_amended : ∀ (ins : InsertResult) (sc : Nat) (swapOk : Bool),
    swapAttempted ins = (ins.errors == 0)
      ∧ (0 < ins.errors → refreshRoute ins sc swapOk = RefreshOutcome.abortedInsert)
      ∧ (ins.errors = 0 → swapAttempted ins = true) := by
  intro ins sc swapOk
  refine ⟨?_, ?_, ?_⟩
  · rcases ins with ⟨i, e⟩
    cases e <;> simp [swapAttempted]
  · intro h
    unfold refreshRoute
    rw [if_pos h]
  · intro h
    simp [swapAttempted, h]

theorem C4_ingest_gate_amended_witness :
    swapAttempted { inserted := 0, errors := 0 } = true :=
  (C4_ingest_gate_amended { inserted := 0, errors := 0 } 51 true).2.2 rfl

/-- Claim C5 (counterexample): with two singleton chunks where the first
insert fails and the second succeeds, the second chunk is still inserted
after the failing chunk (inserted = 1); the cycle does abort afterwards on
errors = 1. -/
theorem C5_counterexample :
    (fun i => i == 1) 0 = false
      ∧ (batchInsertStations [[10], [20]] fun i => i == 1).inserted = 1
      ∧ (batchInsertStations [[10], [20]] fun i => i == 1).errors = 1
      ∧ insertedChunkIdxs [[10], [20]] (fun i => i == 1) = [1]
      ∧ refreshRoute (batchInsertStations [[10], [20]] fun i => i == 1) 0 true
          = RefreshOutcome.abortedInsert := by decide

theorem batchGo_errors_eq_zero (ok : Nat → Bool) (chunks : List (List Nat)) :
    ∀ n, ((batchGo ok n chunks).errors = 0 ↔
      ∀ i, ok (n + i) = false → (chunks.getD i []).length = 0) := by
  induction chunks with
  | nil =>
    intro n
    simp [batchGo]
  | cons b rest ih =>
    intro n
    by_cases h : ok n
    · simp only [batchGo, h, if_pos]
      rw [ih (n + 1)]
      constructor
      · intro H i hf
        cases i with
        | zero =>
          rw [Nat.add_zero, h] at hf
          cases hf
        | succ j =>
          have := H j (by rw [show n + 1 + j = n + (j + 1) from by omega]; exact hf)
          simpa using this
      · intro H i hf
        have := H (i + 1) (by rw [show n + (i + 1) = n + 1 + i from by omega]; exact hf)
        simpa using this
    · have h0 : ok n = false := by simpa using h
      simp only [batchGo, h0, Bool.false_eq_true, if_false]
      constructor
      · intro H i hf
        rw [Nat.add_eq_zero] at H
        cases i with
        | zero => simpa using H.1
        | succ j =>
          have := ((ih (n + 1)).mp H.2) j
            (by rw [show n + 1 + j = n + (j + 1) from by omega]; exact hf)
          simpa using this
      · intro H
        have hb : b.length = 0 := by
          have := H 0 (by rw [Nat.add_zero]; exact h0)
          simpa using this
        have hr : (batchGo ok (n + 1) rest).errors = 0 := by
          rw [ih (n + 1)]
          intro j hf
          have := H (j + 1) (by rw [show n + (j + 1) = n + 1 + j from by omega]; exact hf)
          simpa using this
        simp [hb, hr]

theorem batchGo_inserted_ge (ok : Nat → Bool) (chunks : List (List Nat)) :
    ∀ n i, ok (n + i) = true → (chunks.getD i []).length ≤ (batchGo ok n chunks).inserted := by
  induction chunks with
  | nil =>
    intro n i _
    simp [batchGo]
  | cons b rest ih =>
    intro n i hok
    by_cases h : ok n
    · cases i with
      | zero => simp [batchGo, h]
      | succ j =>
        have hj := ih (n + 1) j (by rw [show n + 1 + j = n + (j + 1) from by omega]; exact hok)
        have : (rest.getD j []).length ≤ b.length + (batchGo ok (n + 1) rest).inserted :=
          hj.trans (Nat.le_add_left _ _)
        simpa [batchGo, h] using this
    · cases i with
      | zero =>
        rw [Nat.add_zero] at hok
        rw [hok] at h
        exact absurd rfl h
      | succ j =>
        have hj := ih (n + 1) j (by rw [show n + 1 + j = n + (j + 1) from by omega]; exact hok)
        have h0 : ok n = false := by simpa using h
        simpa [batchGo, h0] using hj

/-- Claim C5 (amended): every chunk is attempted regardless of earlier
failures — a failing chunk only contributes its rows to the error count,
chunk i's rows are inserted iff its own insert succeeds — and after the
loop the cycle aborts iff the error count is positive (equivalently, the
cycle proceeds iff every failing chunk was empty). -/
theorem C5_chunk_insert_amended : ∀ (chunks : List (List Nat)) (ok : Nat → Bool),
    ((batchInsertStations chunks ok).errors = 0 ↔
      ∀ i, ok i = false → (chunks.getD i []).length = 0)
      ∧ (∀ i, ok i = true → (chunks.getD i []).length ≤ (batchInsertStations chunks ok).inserted)
      ∧ (∀ sc swapOk, 0 < (batchInsertStations chunks ok).errors →
          refreshRoute (batchInsertStations chunks ok) sc swapOk = RefreshOutcome.abortedInsert) := by
  intro chunks ok
  refine ⟨?_, ?_, ?_⟩
  · have := batchGo_errors_eq_zero ok chunks 0
    simpa [batchInsertStations] using this
  · intro i hok
    have := batchGo_inserted_ge ok chunks 0 i (by simpa using hok)
    simpa [batchInsertStations] using this
  · intro sc swapOk h
    unfold refreshRoute
    rw [if_pos h]

theorem C5_chunk_insert_amended_witness :
    (([[10], [20]] : List (List Nat)).getD 1 []).length
      ≤ (batchInsertStations [[10], [20]] fun i => i == 1).inserted :=
  (C5_chunk_insert_amended [[10], [20]] (fun i => i == 1)).2.1 1 (by decide)

/-- Claim C1 (counterexample): a successful staging cycle with detected
changes and a complete ZIP sub-pipeline but zero state and zero county
aggregation counts (a zips-only invocation) still invokes the swap, so the
swap is not gated on positive state and county counts. -/
theorem C1_counterexample :
    swapInvoked true r0 = true
      ∧ smartUpdateRoute true r0 true = RouteOutcome.done true
      ∧ ¬(0 < r0.states_processed ∧ 0 < r0.counties_processed) := by decide

/-- Claim C1 (amended): for a successful staging cycle with at least one
detected change, the swap is invoked iff the ZIP completion reports
complete — the state and county aggregation counts are not consulted — and
on partial completion no swap happens and the route answers with the
in-progress response. -/
theorem C1_promotion_gate_amended : ∀ (r : UpdateResult) (swapOk : Bool),
    r.success = true → 0 < r.total_changes →
      (swapInvoked true r = r.zip_completion.is_complete
        ∧ (r.zip_completion.is_complete = false →
            smartUpdateRoute true r swapOk = RouteOutcome.inProgress r.zip_completion.remaining)) := by
  intro r swapOk hs hc
  have hd : decide (0 < r.total_changes) = true := decide_eq_true hc
  constructor
  · simp [swapInvoked, hs, hd]
  · intro hic
    simp [smartUpdateRoute, hs, hc, hic]

theorem C1_promotion_gate_amended_witness :
    swapInvoked true r1 = r1.zip_completion.is_complete
      ∧ (r1.zip_completion.is_complete = false →
          smartUpdateRoute true r1 true = RouteOutcome.inProgress r1.zip_completion.remaining) :=
  C1_promotion_gate_amended r1 true rfl (by decide)

/-- Claim C10: when the ZIP completion check itself fails, its catch branch
reports completed = 0 and is_complete = false, and any result whose
completion is not complete never reaches the staging-to-serving swap. -/
theorem C10_failed_completion_blocks_swap :
    (∀ total : Nat, (calculateZipCompletion total none).completed = 0
        ∧ (calculateZipCompletion total none).is_complete = false)
      ∧ (∀ (u swapOk : Bool) (r : UpdateResult), r.zip_completion.is_complete = false →
          swapInvoked u r = false ∧ smartUpdateRoute u r swapOk ≠ RouteOutcome.done true) := by
  constructor
  · intro t
    exact ⟨rfl, rfl⟩
  · intro u swapOk r h
    constructor
    · simp [swapInvoked, h]
    · unfold smartUpdateRoute
      split_ifs <;> simp_all [swapPerformedFlag]

theorem C10_failed_completion_blocks_swap_witness :
    swapInvoked true r1 = false ∧ smartUpdateRoute true r1 true ≠ RouteOutcome.done true :=
  C10_failed_completion_blocks_swap.2 true true r1 rfl

/-- Claim C9: the state-level weighted EV score returns 0 for population 0,
and for positive population equals round(min(100, (weighted/population) ·
50000 + min(20, weighted/10))) — the code's inner min(100, base) is
absorbed by the outer one. -/
theorem C9_weighted_ev_score :
    (∀ w : ℚ, AggregationOptimized.calculateWeightedEVScore w 0 = 0)
      ∧ (∀ w pop : ℚ, 0 < pop →
          AggregationOptimized.calculateWeightedEVScore w pop
            = jsRound (min 100 (w / pop * 50000 + min 20 (w / 10)))) := by
  constructor
  · intro w
    simp [AggregationOptimized.calculateWeightedEVScore]
  · intro w pop hp
    unfold AggregationOptimized.calculateWeightedEVScore
    rw [if_neg (ne_of_gt hp)]
    congr 1
    apply min100_absorb
    rcases le_or_lt 0 w with hw | hw
    · left
      exact le_min (by norm_num) (div_nonneg hw (by norm_num))
    · right
      have h1 : w / pop < 0 := div_neg_of_neg_of_pos hw hp
      nlinarith

theorem C9_weighted_ev_score_witness :
    AggregationOptimized.calculateWeightedEVScore 1 2
      = jsRound (min 100 ((1 : ℚ) / 2 * 50000 + min 20 (1 / 10))) :=
  C9_weighted_ev_score.2 1 2 (by norm_num)

/-- Claim C7 (counterexample): at weighted = 60, population = 100000,
vmt = 25 (multiplier 1, adjusted density 60), the code scores 70 (its VMT
branch gives the 85-bracket of thresholds 100/60/35/20/10) while the
claimed formula with the no-VMT thresholds 60/40/25/15/8 gives 66. -/
theorem C7_counterexample :
    MapUtils.calculateFilteredScore 60 100000 (some 25) false = 70
      ∧ MapUtils.claimedVmtReadiness 60 100000 25 false = 66 := by
  constructor
  · have h : MapUtils.calculateFilteredScore 60 100000 (some 25) false = jsRound (139/2) := by
      simp only [MapUtils.calculateFilteredScore, MapUtils.rawFilteredScore,
        MapUtils.vmtStationPiece, MapUtils.trafficMultiplier, MapUtils.densityScore, Option.getD]
      norm_num [min_def, max_def]
    rw [h]
    have h2 := jsRound_eq_intCast (139/2) 70 (by norm_num) (by norm_num)
    simpa using h2
  · have h : MapUtils.claimedVmtReadiness 60 100000 25 false = jsRound 66 := by
      simp only [MapUtils.claimedVmtReadiness, MapUtils.legacyStationPiece,
        MapUtils.trafficMultiplier, MapUtils.densityScore]
      norm_num [min_def, max_def]
    rw [h]
    have h2 := jsRound_eq_intCast 66 66 (by norm_num) (by norm_num)
    simpa using h2

/-- Claim C7 (amended): with a present nonzero vmt, the readiness score is
round(clamp(0.7 · piecewise(d') + 0.3 · min(population/300000 · 100, 100),
0, 100)) where d' is the density divided by clamp(vmt/25, 0.5, 2.0) and the
piecewise uses thresholds 100/60/35/20/10 (stations) or 300/180/105/60/30
(ports) with the VMT-branch bracket formulas. -/
theorem C7_vmt_readiness_amended : ∀ (w pop v : ℚ) (b : Bool), 1 ≤ pop → v ≠ 0 →
    MapUtils.calculateFilteredScore w pop (some v) b = MapUtils.amendedVmtReadiness w pop v b := by
  intro w pop v b hpop hv
  have htm : MapUtils.trafficMultiplier v = min 2 (max (1/2) (v / 25)) := by
    unfold MapUtils.trafficMultiplier
    rw [max_min_distrib_left]
    rw [max_eq_right (by norm_num : (1/2 : ℚ) ≤ 2)]
  unfold MapUtils.calculateFilteredScore MapUtils.amendedVmtReadiness MapUtils.rawFilteredScore
    MapUtils.densityScore
  rw [show (some v).getD 0 = v from rfl]
  rw [if_neg hv]
  rw [htm]
  refine congrArg jsRound (congrArg (min 100) (congrArg (max 0) ?_))
  ring

theorem C7_vmt_readiness_amended_witness :
    MapUtils.calculateFilteredScore 60 100000 (some 25) false
      = MapUtils.amendedVmtReadiness 60 100000 25 false :=
  C7_vmt_readiness_amended 60 100000 25 false (by norm_num) (by norm_num)

/-- Claim C8 (counterexample): the opportunity score returns the
non-integer 25/2 at population 5000, the zip-aggregation need score
returns 2400 > 100 at population 20000000, and the scoring.ts need score
returns the non-integer 1/2 at population 5000. -/
theorem C8_counterexample :
    ¬ isIntQ (MapUtils.calculateOpportunityScore 0 5000 none)
      ∧ (100 : ℚ) < ZipAggregation.calculateNeedScore 20000000 0
      ∧ ¬ isIntQ (Scoring.calculateNeedScore 5000 0 none) := by
  have h1 : MapUtils.calculateOpportunityScore 0 5000 none = 25/2 := by
    simp only [MapUtils.calculateOpportunityScore]
    norm_num [min_def]
  have h3 : Scoring.calculateNeedScore 5000 0 none = 1/2 := by
    simp only [Scoring.calculateNeedScore, Option.getD]
    norm_num [min_def, max_def]
  refine ⟨?_, ?_, ?_⟩
  · rw [h1]
    rintro ⟨n, hn⟩
    have h : (25 : ℚ) = 2 * n := by linarith
    have h2 : (25 : ℤ) = 2 * n := by exact_mod_cast h
    omega
  · norm_num [ZipAggregation.calculateNeedScore]
  · rw [h3]
    rintro ⟨n, hn⟩
    have h : (1 : ℚ) = 2 * n := by linarith
    have h2 : (1 : ℤ) = 2 * n := by exact_mod_cast h
    omega

/-- Claim C8 (amended): the readiness score returns an integer in [0, 100]
for every input; the opportunity score does so when population ≥ 10000,
while for 1 ≤ population < 10000 it returns a value in [0, 25] that is not
rounded; the scoring.ts need score is clamped to [0, 100] but not rounded;
the zip-aggregation need score is not clamped at all (see the
counterexample). -/
theorem C8_score_range_amended :
    (∀ (w pop : ℚ) (vmt : Option ℚ) (b : Bool), 1 ≤ pop →
        isIntQ (MapUtils.calculateFilteredScore w pop vmt b)
          ∧ 0 ≤ MapUtils.calculateFilteredScore w pop vmt b
          ∧ MapUtils.calculateFilteredScore w pop vmt b ≤ 100)
      ∧ (∀ (c pop : ℚ) (vmt : Option ℚ), (10000 : ℚ) ≤ pop →
          isIntQ (MapUtils.calculateOpportunityScore c pop vmt)
            ∧ 0 ≤ MapUtils.calculateOpportunityScore c pop vmt
            ∧ MapUtils.calculateOpportunityScore c pop vmt ≤ 100)
      ∧ (∀ (c pop : ℚ) (vmt : Option ℚ), 1 ≤ pop → pop < 10000 →
          0 ≤ MapUtils.calculateOpportunityScore c pop vmt
            ∧ MapUtils.calculateOpportunityScore c pop vmt ≤ 25)
      ∧ (∀ (pop c : ℚ) (d : Option ℚ),
          0 ≤ Scoring.calculateNeedScore pop c d ∧ Scoring.calculateNeedScore pop c d ≤ 100) := by
  refine ⟨?_, ?_, ?_, ?_⟩
  · intro w pop vmt b _
    unfold MapUtils.calculateFilteredScore
    exact jsRound_clamp_int _
  · intro c pop vmt h
    unfold MapUtils.calculateOpportunityScore
    rw [if_neg (not_lt.mpr h)]
    exact jsRound_clamp_int _
  · intro c pop vmt h1 h2
    unfold MapUtils.calculateOpportunityScore
    rw [if_pos h2]
    constructor
    · exact le_min (by norm_num)
        (mul_nonneg (div_nonneg (by linarith) (by norm_num)) (by norm_num))
    · exact min_le_left _ _
  · intro pop c d
    constructor
    · exact le_max_left _ _
    · exact max_le (by norm_num) (min_le_left _ _)

theorem C8_score_range_amended_witness :
    isIntQ (MapUtils.calculateFilteredScore 0 1 none false)
      ∧ 0 ≤ MapUtils.calculateFilteredScore 0 1 none false
      ∧ MapUtils.calculateFilteredScore 0 1 none false ≤ 100 :=
  C8_score_range_amended.1 0 1 none false (by norm_num)
